import Mathlib

/-!
Verification of `Source/ComputationNetworkLib/SpecialPurposeNodes.cpp`:
the `TraceNode` (throttled diagnostic logging node) and the `FunctionNode`
(external-computation node backed by a process-wide function registry).

The embedding mirrors the source: machine integers that only ever hold
small non-negative counters and configuration values are `Nat`; tensor
views are modelled by the list of elements the view addresses, with the
element type taken as `Int` (the claims under study concern copying and
elementwise addition, not floating-point rounding); fallible code returns
`Except`; the process-wide registry state is passed explicitly.
-/

namespace CNTK

/-- Opaque handle to a resolved native entry point (`externalFunc`, a
`void (*)(void*)` in the source); identity of an entry point is the handle. -/
abbrev ExternalFunc := Nat

/-- Failure of `Plugin::Load`: the module cannot be loaded or the symbol
cannot be bound. -/
structure LinkageError where
  moduleName : String
  symbolName : String
deriving DecidableEq, Repr

instance {ε α : Type} [DecidableEq ε] [DecidableEq α] : DecidableEq (Except ε α)
  | .error a, .error b =>
      if h : a = b then isTrue (h ▸ rfl) else isFalse (fun hh => h (Except.error.inj hh))
  | .error _, .ok _ => isFalse (fun hh => Except.noConfusion hh)
  | .ok _, .error _ => isFalse (fun hh => Except.noConfusion hh)
  | .ok a, .ok b =>
      if h : a = b then isTrue (h ▸ rfl) else isFalse (fun hh => h (Except.ok.inj hh))

/-- The process-wide state touched by `FunctionNodeExternCall`: the
`static map<string, externalFunc> functions_map` returned by `get_map()`,
together with an instrumentation counter recording how many times the
load-and-bind side effect (`Plugin::Load`) has been invoked. -/
structure RegistryState where
  functions_map : List (String × ExternalFunc)
  loadCount : Nat
deriving DecidableEq, Repr

/-- `map::find` on the association list modelling `functions_map`. -/
def mapFind (m : List (String × ExternalFunc)) (k : String) : Option ExternalFunc :=
  match m with
  | [] => none
  | (k', v) :: rest => if k' = k then some v else mapFind rest k

/-- `FunctionNode::FunctionNodeExternCall` (source lines 220-239).
`pluginLoad` models `Plugin::Load` (its implementation is outside this
file); `behavior` gives the effect of invoking an entry point on the
tensor contents (`func(ptr)` mutates the tensor through the pointer).
The source takes a by-value copy of the global map (`auto fmap = get_map();`),
looks up `m_funcName` in the copy, and on a miss calls
`Plugin::Load("abc", "f")` with hardcoded module and symbol names; it never
inserts anything into the map. Returns the post-call registry state and
either the resolved entry point with the mutated tensor contents, or the
linkage error. -/
def functionNodeExternCall
    (pluginLoad : String → String → Except LinkageError ExternalFunc)
    (behavior : ExternalFunc → List Int → List Int)
    (m_funcName : String) (st : RegistryState) (tensor : List Int) :
    RegistryState × Except LinkageError (ExternalFunc × List Int) :=
  let fmap := st.functions_map
  match mapFind fmap m_funcName with
  | some func => (st, .ok (func, behavior func tensor))
  | none =>
    match pluginLoad "abc" "f" with
    | .ok func =>
        ({ st with loadCount := st.loadCount + 1 }, .ok (func, behavior func tensor))
    | .error e =>
        ({ st with loadCount := st.loadCount + 1 }, .error e)

/-- `TensorView::AssignCopyOf(input)`: the destination view's contents
become a copy of the source view's contents. -/
def assignCopyOf (_dst src : List Int) : List Int := src

/-- `TensorView::AddCopyOf(src)`: adds the source view elementwise into
the destination view. -/
def addCopyOf (dst src : List Int) : List Int := List.zipWith (· + ·) dst src

/-- `FunctionNode::ForwardProp` (source lines 205-216): calls
`FunctionNodeExternCall(input)` — handing the external function the INPUT
view — and then `result.AssignCopyOf(input)` copies the (possibly mutated)
input into the output view. Returns the registry state and, on success,
the final contents of the input view and of the output view. -/
def functionNodeForwardProp
    (pluginLoad : String → String → Except LinkageError ExternalFunc)
    (behavior : ExternalFunc → List Int → List Int)
    (m_funcName : String) (st : RegistryState) (inputBuf outputBuf : List Int) :
    RegistryState × Except LinkageError (List Int × List Int) :=
  match functionNodeExternCall pluginLoad behavior m_funcName st inputBuf with
  | (st', .ok (_, inputBuf')) => (st', .ok (inputBuf', assignCopyOf outputBuf inputBuf'))
  | (st', .error e) => (st', .error e)

/-- The forward semantics claimed by the spec, following its words: first
copy the input into the output view, then invoke the entry point passing a
handle to the OUTPUT view (so only the output view may be mutated in
place), leaving the input view unchanged. Stated for comparison with
`functionNodeForwardProp`, which embeds the source. -/
def functionNodeForwardPropSpec
    (pluginLoad : String → String → Except LinkageError ExternalFunc)
    (behavior : ExternalFunc → List Int → List Int)
    (m_funcName : String) (st : RegistryState) (inputBuf outputBuf : List Int) :
    RegistryState × Except LinkageError (List Int × List Int) :=
  let outputBuf0 := assignCopyOf outputBuf inputBuf
  match functionNodeExternCall pluginLoad behavior m_funcName st outputBuf0 with
  | (st', .ok (_, outputBuf')) => (st', .ok (inputBuf, outputBuf'))
  | (st', .error e) => (st', .error e)

/-- `FunctionNode::BackpropTo` (source lines 290-303): adds the output
gradient slice into the input gradient slice, unchanged; no external
derivative is invoked. -/
def functionNodeBackprop (inputGrad outputGrad : List Int) : List Int :=
  addCopyOf inputGrad outputGrad

/-- A sequence of `FunctionNodeExternCall` invocations (one per name in
the list), threading the process-wide registry state. -/
def runExternCalls
    (pluginLoad : String → String → Except LinkageError ExternalFunc)
    (behavior : ExternalFunc → List Int → List Int) :
    List String → RegistryState → RegistryState
  | [], st => st
  | nm :: rest, st =>
      runExternCalls pluginLoad behavior rest
        (functionNodeExternCall pluginLoad behavior nm st []).1

/-- `WriteFormattingOptions`: the per-node formatting configuration used by
`TraceNode::Log` (field names as used at source lines 109-133) and
serialized as its own block by `Save`/`Load`. -/
structure WriteFormattingOptions where
  prologue : String
  sequenceSeparator : String
  sequencePrologue : String
  sequenceEpilogue : String
  elementSeparator : String
  sampleSeparator : String
  precisionFormat : String
  labelMappingFile : String
  isCategoryLabel : Bool
  isSparse : Bool
  transpose : Bool
deriving DecidableEq, Repr

/-- The persisted and runtime state of a `TraceNode`. `baseState` stands
for the base `ComputationNode` state serialized by `Base::Save`/`Base::Load`
(implemented outside this file); the remaining fields are the node's own
(source lines 28-38). -/
structure TraceNode where
  baseState : Nat
  m_message : String
  m_logFirst : Nat
  m_logFrequency : Nat
  m_logGradientToo : Bool
  m_formattingOptions : WriteFormattingOptions
  m_onlyUpToRow : Nat
  m_onlyUpToT : Nat
  m_labelMapping : List String
  m_numMBsRun : Nat
deriving DecidableEq, Repr

/-- Tokens of the checkpoint stream written through `File&`. `baseBlock`
is the block written by `Base::Save`, `fmt` the block written by
`WriteFormattingOptions::Save` (both implemented outside this file and
modelled as single round-tripping tokens). -/
inductive FileTok where
  | baseBlock (b : Nat)
  | wstr (s : String)
  | num (n : Nat)
  | boolv (b : Bool)
  | fmt (f : WriteFormattingOptions)
deriving DecidableEq, Repr

/-- `TraceNode::Save` (source lines 41-53): writes the base block, then
`m_message`, `m_logFirst`, `m_logFrequency`, `m_logGradientToo`, the
formatting-options block, `m_onlyUpToRow`, `m_onlyUpToT`, in that order. -/
def TraceNode.save (n : TraceNode) : List FileTok :=
  [ .baseBlock n.baseState,
    .wstr n.m_message,
    .num n.m_logFirst,
    .num n.m_logFrequency,
    .boolv n.m_logGradientToo,
    .fmt n.m_formattingOptions,
    .num n.m_onlyUpToRow,
    .num n.m_onlyUpToT ]

/-- `TraceNode::Load` (source lines 55-66): reads the same fields in the
same order, unconditionally — `modelVersion` is threaded through (to
`Base::Load` and `WriteFormattingOptions::Load`) but gates none of the
node's own reads. A stream not providing every field in this exact layout
fails to load. Returns the loaded node and the unconsumed rest of the
stream. (`m_labelMapping` and `m_numMBsRun` are not serialized; a freshly
loaded node has them empty and zero.) -/
def TraceNode.load (_modelVersion : Nat) (stream : List FileTok) :
    Option (TraceNode × List FileTok) :=
  match stream with
  | .baseBlock b :: .wstr msg :: .num lf :: .num lq :: .boolv lg :: .fmt fo
      :: .num row :: .num t :: rest =>
    some ({ baseState := b, m_message := msg, m_logFirst := lf, m_logFrequency := lq,
            m_logGradientToo := lg, m_formattingOptions := fo,
            m_onlyUpToRow := row, m_onlyUpToT := t,
            m_labelMapping := [], m_numMBsRun := 0 }, rest)
  | _ => none

/-- The throttle test of `TraceNode::Log` (source line 112):
`m_numMBsRun <= m_logFirst || (m_logFrequency && (m_numMBsRun-1) % m_logFrequency == 0)`. -/
def traceShouldEmit (m_numMBsRun m_logFirst m_logFrequency : Nat) : Bool :=
  decide (m_numMBsRun ≤ m_logFirst)
    || (decide (m_logFrequency ≠ 0) && decide ((m_numMBsRun - 1) % m_logFrequency = 0))

/-- `TraceNode::ForwardProp` (source lines 75-85): the output view's
contents after `result.AssignCopyOf(input)`. -/
def traceNodeForwardValue (inputBuf outputBuf : List Int) : List Int :=
  assignCopyOf outputBuf inputBuf

/-- `TraceNode::BackpropTo` (source lines 87-101): the input gradient
slice after `sliceInputGrad.AddCopyOf(sliceOutputGrad)`. -/
def traceNodeBackprop (inputGrad outputGrad : List Int) : List Int :=
  addCopyOf inputGrad outputGrad

/-- Observable logging state of one `TraceNode` during an epoch: the run
counter `m_numMBsRun` and how many times `Log`'s one-time prologue text
(source lines 107-111, printed whenever `m_numMBsRun == 1`) has been
emitted so far. -/
structure TraceEpochState where
  m_numMBsRun : Nat
  prologueCount : Nat
deriving DecidableEq, Repr

/-- One `Log` call's effect on the prologue count (source lines 107-111):
the prologue is printed iff `m_numMBsRun == 1` at the time of the call. -/
def logPrologue (numMBsRun count : Nat) : Nat :=
  if numMBsRun = 1 then count + 1 else count

/-- One training run of a `TraceNode`: `BeginForwardProp` increments
`m_numMBsRun` (source lines 68-73), `ForwardProp` calls `Log` once
(line 84), and `BackpropTo` calls `Log` again iff `m_logGradientToo`
(lines 99-100). -/
def traceRunOnce (logGradientToo : Bool) (st : TraceEpochState) : TraceEpochState :=
  let c := st.m_numMBsRun + 1
  let p1 := logPrologue c st.prologueCount
  let p2 := if logGradientToo then logPrologue c p1 else p1
  { m_numMBsRun := c, prologueCount := p2 }

/-- An epoch of `numRuns` training runs starting from the post-validation
state (`m_numMBsRun = 0`, no prologue emitted yet). -/
def traceRunEpoch (logGradientToo : Bool) : Nat → TraceEpochState
  | 0 => ⟨0, 0⟩
  | n + 1 => traceRunOnce logGradientToo (traceRunEpoch logGradientToo n)

/-- `TraceNode::Validate` (source lines 137-147): on the final validation
pass, if category-label or sparse rendering is requested, a label-mapping
file is configured and no mapping is loaded yet, loads the label mapping
(`File::LoadLabelFile`, modelled by the `loadLabelFile` parameter); then
unconditionally resets `m_numMBsRun` to 0. -/
def traceNodeValidate (loadLabelFile : String → List String)
    (n : TraceNode) (isFinalValidationPass : Bool) : TraceNode :=
  let n' :=
    if isFinalValidationPass
        && (n.m_labelMapping.isEmpty
            && (n.m_formattingOptions.isCategoryLabel || n.m_formattingOptions.isSparse)
            && !(n.m_formattingOptions.labelMappingFile == ""))
    then { n with m_labelMapping := loadLabelFile n.m_formattingOptions.labelMappingFile }
    else n
  { n' with m_numMBsRun := 0 }

/-! Helper lemmas (shared infrastructure for the claim theorems). -/

/-- One `FunctionNodeExternCall` never changes the global `functions_map`:
it works on a by-value copy and has no insert path. -/
theorem externCall_preserves_map
    (pluginLoad : String → String → Except LinkageError ExternalFunc)
    (behavior : ExternalFunc → List Int → List Int)
    (name : String) (st : RegistryState) (tensor : List Int) :
    (functionNodeExternCall pluginLoad behavior name st tensor).1.functions_map
      = st.functions_map := by
  unfold functionNodeExternCall
  cases hf : mapFind st.functions_map name with
  | some f => simp [hf]
  | none => cases hl : pluginLoad "abc" "f" <;> simp [hf, hl]

/-- Elementwise reading of `AddCopyOf`: position `i` of the updated
destination holds the sum of the two views at `i`. -/
theorem addCopyOf_getElem :
    ∀ (g o : List Int) (i : Nat) (a b : Int),
      g[i]? = some a → o[i]? = some b → (addCopyOf g o)[i]? = some (a + b) := by
  intro g
  induction g with
  | nil => intro o i a b hg; simp at hg
  | cons x xs ih =>
    intro o i a b hg ho
    cases o with
    | nil => simp at ho
    | cons y ys =>
      cases i with
      | zero =>
        simp only [List.getElem?_cons_zero, Option.some.injEq] at hg ho
        simp [addCopyOf, hg, ho]
      | succ j =>
        simp only [List.getElem?_cons_succ] at hg ho
        simpa [addCopyOf] using ih ys j a b hg ho

/-- The run counter after `n` runs of an epoch equals `n`. -/
theorem traceRunEpoch_numMBsRun (b : Bool) :
    ∀ n, (traceRunEpoch b n).m_numMBsRun = n := by
  intro n
  induction n with
  | zero => rfl
  | succ k ih => simp [traceRunEpoch, traceRunOnce, ih]

/-! Claim theorems. -/

/-- C1: the claim says the load-and-bind side effect (`Plugin::Load`)
occurs at most once per name no matter how often resolution runs. The
code calls `Plugin::Load` on every resolution of a name absent from
`functions_map` and never inserts the result: two resolutions of the
uncached name `g` perform the load side effect twice, with the global
map left empty (so every later resolution loads again as well). -/
theorem registry_load_not_cached :
    (runExternCalls (fun _ _ => .ok 7) (fun _ t => t) ["g", "g"] ⟨[], 0⟩).loadCount = 2
    ∧ (runExternCalls (fun _ _ => .ok 7) (fun _ t => t) ["g", "g"] ⟨[], 0⟩).functions_map
        = [] := by
  constructor <;> rfl

/-- C2: the throttle of `TraceNode::Log` emits a run's value iff
`RunCounter <= logFirst` or (`logFrequency != 0` and
`(RunCounter - 1) % logFrequency == 0`); for `logFirst = 10`,
`logFrequency = 10` the emitting runs among 1..30 are exactly
`{1..10} ∪ {11, 21}`, and for `logFrequency = 0` exactly `{1..10}`. -/
theorem trace_throttle_correct :
    (∀ r f q, traceShouldEmit r f q = true ↔ (r ≤ f ∨ (q ≠ 0 ∧ (r - 1) % q = 0)))
    ∧ (∀ r, 1 ≤ r → r ≤ 30 →
        (traceShouldEmit r 10 10 = true ↔ (r ≤ 10 ∨ r = 11 ∨ r = 21)))
    ∧ (∀ r, 1 ≤ r → r ≤ 30 → (traceShouldEmit r 10 0 = true ↔ r ≤ 10)) := by
  refine ⟨?_, ?_, ?_⟩
  · intro r f q
    simp [traceShouldEmit]
  · intro r h1 h30
    interval_cases r <;> decide
  · intro r h1 h30
    interval_cases r <;> decide

theorem trace_throttle_correct_witness : traceShouldEmit 11 10 10 = true :=
  (trace_throttle_correct.2.1 11 (by decide) (by decide)).mpr (Or.inr (Or.inl rfl))

/-- C3 counterexample: the claim has the forward pass copy the input into
the output view first and then hand the external function a handle to the
OUTPUT view. The code does the opposite order: it hands the function the
INPUT view (`FunctionNodeExternCall(input)`) and only then copies the
mutated input into the output. With an external function that overwrites
its buffer with `[99]`, the code leaves the input view holding `[99]`
while the spec's order would leave it holding `[1, 2]`. -/
theorem function_forward_view_counterexample :
    functionNodeForwardProp (fun _ _ => .ok 0) (fun _ _ => [99]) "g"
        ⟨[("g", 0)], 0⟩ [1, 2] [0, 0]
      ≠ functionNodeForwardPropSpec (fun _ _ => .ok 0) (fun _ _ => [99]) "g"
        ⟨[("g", 0)], 0⟩ [1, 2] [0, 0] := by
  decide

/-- C3 amended: on each forward evaluation the node resolves (or loads)
the entry point and invokes it on the INPUT view, which the external
function may mutate in place; the (possibly mutated) input is then copied
into the output view, so the node's value equals whatever the external
function produced (the copied input when the function does not mutate). -/
theorem function_forward_amended :
    (∀ pl beh name st inputBuf outputBuf func,
        mapFind st.functions_map name = some func →
        functionNodeForwardProp pl beh name st inputBuf outputBuf
          = (st, .ok (beh func inputBuf, beh func inputBuf)))
    ∧ (∀ pl beh name st inputBuf outputBuf func,
        mapFind st.functions_map name = none →
        pl "abc" "f" = .ok func →
        functionNodeForwardProp pl beh name st inputBuf outputBuf
          = ({ st with loadCount := st.loadCount + 1 },
             .ok (beh func inputBuf, beh func inputBuf))) := by
  constructor
  · intro pl beh name st inputBuf outputBuf func hfind
    simp [functionNodeForwardProp, functionNodeExternCall, assignCopyOf, hfind]
  · intro pl beh name st inputBuf outputBuf func hfind hload
    simp [functionNodeForwardProp, functionNodeExternCall, assignCopyOf, hfind, hload]

theorem function_forward_amended_witness :
    functionNodeForwardProp (fun _ _ => .ok 9) (fun _ _ => [99]) "g"
        ⟨[("g", 5)], 0⟩ [1, 2] [0, 0]
      = (⟨[("g", 5)], 0⟩, .ok ([99], [99]))
    ∧ functionNodeForwardProp (fun _ _ => .ok 9) (fun _ _ => [99]) "h"
        ⟨[("g", 5)], 0⟩ [1, 2] [0, 0]
      = (⟨[("g", 5)], 1⟩, .ok ([99], [99])) :=
  ⟨function_forward_amended.1 _ _ "g" ⟨[("g", 5)], 0⟩ [1, 2] [0, 0] 5 (by decide),
   function_forward_amended.2 _ _ "h" ⟨[("g", 5)], 0⟩ [1, 2] [0, 0] 9 (by decide) rfl⟩

/-- C4: resolving a name absent from the registry when `Plugin::Load`
fails yields the linkage error — the forward evaluation aborts with it —
and the global `functions_map` is left unchanged: no partial entry is
inserted for the name. -/
theorem linkage_error_registry_unchanged
    (pl : String → String → Except LinkageError ExternalFunc)
    (beh : ExternalFunc → List Int → List Int)
    (name : String) (st : RegistryState) (tensor outputBuf : List Int)
    (e : LinkageError)
    (hfind : mapFind st.functions_map name = none)
    (hload : pl "abc" "f" = .error e) :
    (functionNodeExternCall pl beh name st tensor).2 = .error e
    ∧ (functionNodeExternCall pl beh name st tensor).1.functions_map = st.functions_map
    ∧ (functionNodeForwardProp pl beh name st tensor outputBuf).2 = .error e := by
  refine ⟨?_, ?_, ?_⟩ <;>
    simp [functionNodeExternCall, functionNodeForwardProp, hfind, hload]

theorem linkage_error_registry_unchanged_witness :
    (functionNodeExternCall (fun _ _ => .error ⟨"abc", "f"⟩) (fun _ t => t) "g"
        ⟨[], 0⟩ [1]).2 = .error ⟨"abc", "f"⟩
    ∧ (functionNodeExternCall (fun _ _ => .error ⟨"abc", "f"⟩) (fun _ t => t) "g"
        ⟨[], 0⟩ [1]).1.functions_map = []
    ∧ (functionNodeForwardProp (fun _ _ => .error ⟨"abc", "f"⟩) (fun _ t => t) "g"
        ⟨[], 0⟩ [1] [0]).2 = .error ⟨"abc", "f"⟩ :=
  linkage_error_registry_unchanged _ _ "g" ⟨[], 0⟩ [1] [0] ⟨"abc", "f"⟩ rfl rfl

/-- C5: `TraceNode`'s forward copies the input into the output view
unchanged; `FunctionNode`'s forward with a non-mutating external function
likewise returns the input; and both `BackpropTo`s add the output gradient
slice into the input gradient slice elementwise, with no scaling and no
external derivative involved. -/
theorem pass_through_identity :
    (∀ inputBuf outputBuf, traceNodeForwardValue inputBuf outputBuf = inputBuf)
    ∧ (∀ pl name st inputBuf outputBuf func,
        mapFind st.functions_map name = some func →
        functionNodeForwardProp pl (fun _ t => t) name st inputBuf outputBuf
          = (st, .ok (inputBuf, inputBuf)))
    ∧ (∀ (g o : List Int) (i : Nat) (a b : Int),
        g[i]? = some a → o[i]? = some b → (traceNodeBackprop g o)[i]? = some (a + b))
    ∧ (∀ (g o : List Int) (i : Nat) (a b : Int),
        g[i]? = some a → o[i]? = some b → (functionNodeBackprop g o)[i]? = some (a + b)) := by
  refine ⟨?_, ?_, ?_, ?_⟩
  · intro inputBuf outputBuf; rfl
  · intro pl name st inputBuf outputBuf func hfind
    simp [functionNodeForwardProp, functionNodeExternCall, assignCopyOf, hfind]
  · exact fun g o i a b hg ho => addCopyOf_getElem g o i a b hg ho
  · exact fun g o i a b hg ho => addCopyOf_getElem g o i a b hg ho

theorem pass_through_identity_witness :
    traceNodeForwardValue [1, 2] [0, 0] = [1, 2]
    ∧ functionNodeForwardProp (fun _ _ => .ok 0) (fun _ t => t) "g"
        ⟨[("g", 5)], 0⟩ [1, 2] [0, 0] = (⟨[("g", 5)], 0⟩, .ok ([1, 2], [1, 2]))
    ∧ (traceNodeBackprop [1, 2] [10, 20])[0]? = some 11
    ∧ (functionNodeBackprop [1, 2] [10, 20])[1]? = some 22 :=
  ⟨pass_through_identity.1 [1, 2] [0, 0],
   pass_through_identity.2.1 (fun _ _ => .ok 0) "g" ⟨[("g", 5)], 0⟩ [1, 2] [0, 0] 5
     (by decide),
   pass_through_identity.2.2.1 [1, 2] [10, 20] 0 1 10 rfl rfl,
   pass_through_identity.2.2.2 [1, 2] [10, 20] 1 2 20 rfl rfl⟩

/-- C6 counterexample: the claim says the prologue is emitted exactly
once per validation epoch for ANY throttle configuration. But `Log`
prints the prologue on every call made while `m_numMBsRun == 1`, and with
`logGradientToo = true` run 1 calls `Log` twice (once from `ForwardProp`,
once from `BackpropTo`), so the prologue is emitted twice in the epoch. -/
theorem trace_prologue_counterexample :
    (traceRunEpoch true 1).prologueCount = 2 := by
  rfl

/-- C6 amended: the prologue is emitted on every `Log` call made while
`RunCounter = 1` and never afterwards until validation resets the
counter: over an epoch of `n ≥ 1` runs it is emitted exactly once when
`logGradientToo` is false and exactly twice when `logGradientToo` is
true, and the counter after the epoch is `n`. -/
theorem trace_prologue_amended (b : Bool) (n : Nat) (h : 1 ≤ n) :
    (traceRunEpoch b n).prologueCount = (if b then 2 else 1)
    ∧ (traceRunEpoch b n).m_numMBsRun = n := by
  refine ⟨?_, traceRunEpoch_numMBsRun b n⟩
  induction n with
  | zero => exact absurd h (by decide)
  | succ k ih =>
    cases k with
    | zero => cases b <;> rfl
    | succ j =>
      have hc : (traceRunEpoch b (j + 1)).m_numMBsRun = j + 1 :=
        traceRunEpoch_numMBsRun b (j + 1)
      have hstep : (traceRunEpoch b (j + 1 + 1)).prologueCount
          = (traceRunEpoch b (j + 1)).prologueCount := by
        simp [traceRunEpoch, traceRunOnce, logPrologue, hc]
      rw [hstep]
      exact ih (by omega)

theorem trace_prologue_amended_witness :
    (traceRunEpoch true 3).prologueCount = 2
    ∧ (traceRunEpoch true 3).m_numMBsRun = 3 := by
  have h := trace_prologue_amended true 3 (by decide)
  simpa using h

/-- C7: saving a `TraceNode` and loading the saved stream reproduces the
`message`, `logFirst`, `logFrequency`, `logGradientToo`, formatting
options, `onlyUpToRow` and `onlyUpToT` fields identically (the
non-persisted label mapping and run counter come back empty and zero),
consuming exactly the written tokens in the written order. -/
theorem trace_checkpoint_roundtrip :
    ∀ (modelVersion : Nat) (n : TraceNode) (rest : List FileTok),
      TraceNode.load modelVersion (n.save ++ rest)
        = some ({ n with m_labelMapping := [], m_numMBsRun := 0 }, rest) := by
  intro v n rest
  rfl

/-- C9 counterexample: the claim says `Load` tolerates an older layout
lacking the trailing `onlyUpToRow`/`onlyUpToT` fields. It does not: on a
stream that ends after the formatting-options block the load fails
(returns nothing) because the two trailing reads are unconditional. -/
theorem trace_load_old_layout_counterexample :
    TraceNode.load 0
      [.baseBlock 0, .wstr "m", .num 10, .num 10, .boolv false,
       .fmt ⟨"", "", "", "", "", "", ".8", "", false, false, false⟩] = none := by
  rfl

/-- C9 amended: `TraceNode::Load` reads the full field layout
unconditionally for every model version — it never skips the trailing
`onlyUpToRow`/`onlyUpToT` reads — so a stream lacking those fields fails
to load rather than being tolerated. -/
theorem trace_load_reads_all_fields :
    ∀ (modelVersion b : Nat) (msg : String) (lf lq : Nat) (lg : Bool)
      (fo : WriteFormattingOptions),
      TraceNode.load modelVersion
        [.baseBlock b, .wstr msg, .num lf, .num lq, .boolv lg, .fmt fo] = none := by
  intro v b msg lf lq lg fo
  rfl

/-- C8: `TraceNode::Validate` resets `m_numMBsRun` to 0 at the end of
every validation pass, final or not, regardless of the counter's previous
value and of whether a label mapping gets loaded. -/
theorem trace_validate_resets_counter :
    ∀ (loadLabelFile : String → List String) (n : TraceNode) (isFinalValidationPass : Bool),
      (traceNodeValidate loadLabelFile n isFinalValidationPass).m_numMBsRun = 0 := by
  intro f n b
  rfl

/-- C10: `FunctionNodeExternCall` operates on a by-value copy of the map
returned by `get_map()` and has no insertion path, so any sequence of
resolution calls — hits, successful loads, or failed loads under any
`Plugin::Load` behavior — leaves the global registry mapping unchanged. -/
theorem registry_global_map_unchanged :
    ∀ (pl : String → String → Except LinkageError ExternalFunc)
      (beh : ExternalFunc → List Int → List Int)
      (names : List String) (st : RegistryState),
      (runExternCalls pl beh names st).functions_map = st.functions_map := by
  intro pl beh names
  induction names with
  | nil => intro st; rfl
  | cons nm rest ih =>
    intro st
    calc (runExternCalls pl beh (nm :: rest) st).functions_map
        = (runExternCalls pl beh rest
            (functionNodeExternCall pl beh nm st []).1).functions_map := rfl
      _ = (functionNodeExternCall pl beh nm st []).1.functions_map := ih _
      _ = st.functions_map := externCall_preserves_map pl beh nm st []

end CNTK
